import Mathlib

/-!
# Verification development for the MemePlayer repository

Shallow embedding of the playback sequencing, countdown, search-filter and
playlist logic of `MemePlayer_full.py` (class `MemePlayer`, the full player)
and of `MemePlayer.py` (the simple player), plus theorems settling the
spec claims about them.

Modelling conventions:
* Python `int` becomes `Int`; Python `%` on a positive divisor agrees with
  `Int.emod` (both return a value in `[0, divisor)`), so `%` is used.
* GUI widgets (panels, listbox, progress bar, labels) are modelled only to
  the extent the spec talks about them: the countdown progress bar keeps
  its `maximum`/`value` fields, the display keeps which item is shown.
* `tkinter`'s `after`/`after_cancel` delayed-callback mechanism is modelled
  by an explicit queue of pending callbacks `(id, delay-ms, callback)`
  together with the `_after_id` variable; delivering a callback pops it
  from the queue (the variable may then hold a stale id, as in tkinter).
* `random.randrange(n)` is modelled by an explicit parameter `pick` whose
  contract `pick < n` appears as a hypothesis where needed.
* External collaborators (VLC presence, the filesystem, media durations)
  are an explicit environment record `Env`.
* In the source, an expiring countdown tick calls `play_next` directly.
  To keep all definitions structurally recursive, tick-like operations
  return `state × Bool`, where the `Bool` reports that the source would
  have invoked `play_next` synchronously right there (this can only
  happen when a countdown is armed with `seconds ≤ 0`; all theorems below
  work with positive durations, where the flag is `false`, and the
  event-loop level `deliver_first` performs the `play_next` call itself).
* Audio side effects (reaction SFX, BGM) spawn daemon threads that never
  write the playback state; they are omitted.
-/

/-! ## Python string/path helpers -/

/-- The suffix of `cs` starting at its last occurrence of `sep` (inclusive),
or `[]` when `sep` does not occur. -/
def sufFromLast (sep : Char) : List Char → List Char
  | [] => []
  | c :: rest =>
    let e := sufFromLast sep rest
    if e = [] then (if c = sep then c :: rest else []) else e

/-- `os.path.basename` for POSIX-style paths: the part after the last `/`. -/
def basenameOf (p : String) : String :=
  match sufFromLast '/' p.toList with
  | [] => p
  | _ :: t => String.mk t

/-- `os.path.splitext(p)[1]`: the extension (with the dot) of the basename,
where leading dots of the basename never start an extension. -/
def splitextExt (p : String) : String :=
  let b := (basenameOf p).toList
  let core := b.dropWhile (fun c => c = '.')
  String.mk (sufFromLast '.' core)

/-- Python `str.lower()` (character-wise; media extensions are ASCII). -/
def strToLower (s : String) : String :=
  String.mk (s.toList.map Char.toLower)

/-- The ASCII whitespace stripped by Python `str.strip()`. -/
def isPySpace (c : Char) : Bool :=
  c = ' ' || c = '\t' || c = '\n' || c = '\r' || c = '\x0b' || c = '\x0c'

/-- Python `str.strip()`: drop whitespace from both ends. -/
def strTrim (s : String) : String :=
  String.mk (((s.toList.dropWhile isPySpace).reverse.dropWhile isPySpace).reverse)

/-- Python `needle in hay` on lists of characters. -/
def containsSub (needle : List Char) : List Char → Bool
  | [] => needle.isEmpty
  | c :: t => needle.isPrefixOf (c :: t) || containsSub needle t

/-- Python substring test `needle in hay` on strings. -/
def strContainsSub (hay needle : String) : Bool :=
  containsSub needle.toList hay.toList

/-- Python `s.endswith(suffix)`. -/
def strEndsWith (s suffix : String) : Bool :=
  suffix.toList.isSuffixOf s.toList

/-- Python `s.endswith(exts)` with a tuple of suffixes. -/
def endsWithAny (s : String) (exts : List String) : Bool :=
  exts.any (fun e => strEndsWith s e)

/-! ## File-type constants (from the top of each source file) -/

/-- `IMAGE_EXTS` of MemePlayer_full.py. -/
def IMAGE_EXTS : List String := [".png", ".jpg", ".jpeg", ".webp", ".gif"]

/-- `VIDEO_EXTS` of MemePlayer_full.py. -/
def VIDEO_EXTS : List String := [".mp4", ".mov", ".m4v", ".webm"]

/-- `PLAYABLE_EXTS` of MemePlayer_full.py. -/
def PLAYABLE_EXTS : List String := IMAGE_EXTS ++ VIDEO_EXTS

/-- `IMAGE_EXTS` of MemePlayer.py (the simple player). -/
def S_IMAGE_EXTS : List String := [".png", ".jpg", ".jpeg", ".webp"]

/-- `VIDEO_EXTS` of MemePlayer.py. -/
def S_VIDEO_EXTS : List String := [".mp4", ".mov", ".m4v"]

/-- `PLAYABLE_EXTS` of MemePlayer.py. -/
def S_PLAYABLE_EXTS : List String := S_IMAGE_EXTS ++ S_VIDEO_EXTS

/-! ## Shared event and environment types -/

/-- Callbacks that the players hand to `tkinter.after`: the 1-second
countdown tick (`_tick_countdown`) and the direct `play_next` scheduled by
`toggle_pause` on resume (and by the simple player's `_play_current`). -/
inductive CB where
  | tick
  | playNextCB
  deriving DecidableEq, Repr

/-- What the display area currently shows. -/
inductive Shown where
  | image (path : String)
  | video (path : String)
  | placeholder (path : String)
  deriving DecidableEq, Repr

/-- User-visible warnings raised through `messagebox.showwarning` /
`messagebox.showinfo`. -/
inductive Warning where
  | emptyCatalog
  | vlcMissing
  | duplicateName
  deriving DecidableEq, Repr

/-- One pending `tkinter.after` callback: its id, its delay in milliseconds,
and which callback was scheduled. -/
structure Pending where
  id : Nat
  delayMs : Int
  cb : CB
  deriving DecidableEq, Repr

/-- External collaborators: VLC presence and construction success, the
filesystem, and media durations as reported by VLC
(`none` models an exception or an unknown length). -/
structure Env where
  vlc_available : Bool
  vlc_init_ok : Bool
  pathExists : String → Bool
  durationMs : String → Option Int
  walkEntries : String → List (String × String)

/-! ## The search filter as a pure function (lines 497-503 of
MemePlayer_full.py) -/

/-- `_apply_search_filter`'s core: strip and lowercase the query; the empty
query keeps the catalog, otherwise keep files whose lowercased basename
contains the query. -/
def filterCatalog (files : List String) (query : String) : List String :=
  let q := strToLower (strTrim query)
  if q = "" then files
  else files.filter (fun f => strContainsSub (strToLower (basenameOf f)) q)

/-! ## The full player (`MemePlayer_full.py`, class `MemePlayer`) -/

namespace MemePlayerFull

/-- The playback-relevant state of the full player.  `after_id` models the
`_after_id` attribute (it may be stale after a callback fired); `sched` is
the queue of genuinely pending `after` callbacks; `next_after_id` generates
fresh callback ids. -/
structure State where
  folder : Option String
  files : List String
  filtered_files : List String
  current_index : Option Int
  is_running : Bool
  is_paused : Bool
  shuffle : Bool
  interval_seconds : Int
  loop_videos : Bool
  vlc_instance : Bool
  vlc_player : Bool
  search_var : String
  playlists : List (String × List String)
  saved_playlists : List (String × List String)
  current_playlist : String
  after_id : Option Nat
  sched : List Pending
  next_after_id : Nat
  video_stop_timer : Option Int
  countdown_seconds_left : Int
  progress_maximum : Int
  progress_value : Int
  displayed : Option Shown
  deriving DecidableEq, Repr

/-- `self._after_id = self.after(delayMs, cb)`: enqueue a fresh callback and
record its id in `_after_id`. -/
def after_schedule (delayMs : Int) (cb : CB) (s : State) : State :=
  { s with sched := s.sched ++ [⟨s.next_after_id, delayMs, cb⟩],
           after_id := some s.next_after_id,
           next_after_id := s.next_after_id + 1 }

/-- `_cancel_timers` (lines 676-685): when `_after_id` is set, cancel that
callback, clear the id, and reset the countdown display fields. -/
def cancel_timers (s : State) : State :=
  match s.after_id with
  | none => s
  | some i =>
    { s with sched := s.sched.filter (fun e => e.id != i),
             after_id := none,
             countdown_seconds_left := 0,
             progress_value := 0 }

/-- `_stop_video`: stop the VLC player and cancel the video-stop timer
(the full player never arms that timer). -/
def stop_video (s : State) : State :=
  { s with video_stop_timer := none }

/-- `_show_image`: display the image (PIL rendering itself is external). -/
def show_image (path : String) (s : State) : State :=
  { s with displayed := some (Shown.image path) }

/-- `_show_placeholder_video`: textual placeholder when VLC is absent. -/
def show_placeholder_video (path : String) (s : State) : State :=
  { s with displayed := some (Shown.placeholder path) }

/-- `_play_video`: hand the file to the VLC player (no-op without one). -/
def play_video (path : String) (s : State) : State :=
  if !s.vlc_player then s else { s with displayed := some (Shown.video path) }

/-- `_tick_countdown` (lines 642-654).  Returns the new state plus a flag
reporting that the expiry branch would call `play_next` (the caller at the
event-loop level performs that call). -/
def tick_countdown (s : State) : State × Bool :=
  if !s.is_running || s.is_paused then (s, false)
  else if s.countdown_seconds_left ≤ 0 then
    ({ s with progress_value := s.progress_maximum }, true)
  else
    let elapsed := s.progress_value + 1
    (after_schedule 1000 CB.tick
      { s with progress_value := elapsed,
               countdown_seconds_left := s.countdown_seconds_left - 1 }, false)

/-- `_start_countdown` (lines 635-640): cancel any existing timer, reset the
countdown fields to `seconds`, and run the first tick synchronously. -/
def start_countdown (seconds : Int) (s : State) : State × Bool :=
  let s := cancel_timers s
  tick_countdown { s with countdown_seconds_left := seconds,
                          progress_maximum := seconds, progress_value := 0 }

/-- `_start_countdown_for_video_loop` (lines 656-674): try to read the clip
duration from VLC; on `0`, negative, or unknown duration fall back to
`interval_seconds`; then arm the tick countdown with that many seconds. -/
def start_countdown_for_video_loop (env : Env) (path : String) (s : State) :
    State × Bool :=
  let s := cancel_timers s
  let length_s : Option Int :=
    match env.durationMs path with
    | some ms => if ms ≠ 0 ∧ ms > 0 then some (Int.fdiv ms 1000) else none
    | none => none
  let n : Int :=
    match length_s with
    | some l => if l ≤ 0 then s.interval_seconds else l
    | none => s.interval_seconds
  tick_countdown { s with countdown_seconds_left := n,
                          progress_maximum := n, progress_value := 0 }

/-- `_play_current` (lines 595-632): cancel timers, validate the index,
dispatch on the extension, and re-arm the appropriate countdown. -/
def play_current (env : Env) (s : State) : State × Bool :=
  let s := cancel_timers s
  match s.current_index with
  | none => (s, false)
  | some idx =>
    if idx < 0 ∨ (s.filtered_files.length : Int) ≤ idx then (s, false)
    else
      let path := s.filtered_files.getD idx.toNat ""
      let ext := strToLower (splitextExt path)
      if IMAGE_EXTS.contains ext then
        let s := show_image path (stop_video s)
        if s.is_running && !s.is_paused then start_countdown s.interval_seconds s
        else (s, false)
      else if VIDEO_EXTS.contains ext then
        if !env.vlc_available || !s.vlc_player then
          let s := show_placeholder_video path (stop_video s)
          if s.is_running && !s.is_paused then start_countdown s.interval_seconds s
          else (s, false)
        else
          let s := play_video path s
          if s.loop_videos then start_countdown_for_video_loop env path s
          else if s.is_running && !s.is_paused then
            start_countdown s.interval_seconds s
          else (s, false)
      else (s, false)

/-- `play_next` (lines 576-586); `pick` models `random.randrange(len)`. -/
def play_next (env : Env) (pick : Nat) (s : State) : State × Bool :=
  if s.filtered_files.isEmpty then (s, false)
  else if s.shuffle then
    play_current env { s with current_index := some (Int.ofNat pick) }
  else
    match s.current_index with
    | none => play_current env { s with current_index := some 0 }
    | some i =>
      play_current env
        { s with current_index := some ((i + 1) % (s.filtered_files.length : Int)) }

/-- `play_prev` (lines 564-574); `pick` models `random.randrange(len)`. -/
def play_prev (env : Env) (pick : Nat) (s : State) : State × Bool :=
  if s.filtered_files.isEmpty then (s, false)
  else if s.shuffle then
    play_current env { s with current_index := some (Int.ofNat pick) }
  else
    match s.current_index with
    | none => play_current env { s with current_index := some 0 }
    | some i =>
      play_current env
        { s with current_index := some ((i - 1) % (s.filtered_files.length : Int)) }

/-- `start` (lines 511-531): warn and bail out on an empty filtered catalog;
optionally warn about missing VLC; create the VLC player; set the flags;
default the index to 0; play immediately. -/
def start (env : Env) (s : State) : State × List Warning × Bool :=
  if s.filtered_files.isEmpty then (s, [Warning.emptyCatalog], false)
  else
    let warns :=
      if !env.vlc_available &&
          s.filtered_files.any
            (fun p => endsWithAny (strToLower p) VIDEO_EXTS) then
        [Warning.vlcMissing]
      else []
    let s :=
      if env.vlc_available && !s.vlc_instance then
        if env.vlc_init_ok then { s with vlc_instance := true, vlc_player := true }
        else { s with vlc_instance := false, vlc_player := false }
      else s
    let s := { s with is_running := true, is_paused := false }
    let s := if s.current_index = none then { s with current_index := some 0 } else s
    let r := play_current env s
    (r.1, warns, r.2)

/-- `stop` (lines 533-539). -/
def stop (s : State) : State :=
  let s := { s with is_running := false, is_paused := false }
  let s := stop_video (cancel_timers s)
  { s with displayed := none }

/-- `toggle_pause` (lines 541-562): a no-op when not running; on resume,
clear the paused flag and, when no callback is pending, schedule a direct
`play_next` after the full interval; on pause, set the flag and cancel. -/
def toggle_pause (s : State) : State :=
  if !s.is_running then s
  else if s.is_paused then
    let s := { s with is_paused := false }
    if s.after_id = none then
      after_schedule (s.interval_seconds * 1000) CB.playNextCB s
    else s
  else
    cancel_timers { s with is_paused := true }

/-- `_on_list_double` (lines 588-593): `sel` is the listbox selection. -/
def on_list_double (env : Env) (sel : List Nat) (s : State) : State × Bool :=
  match sel with
  | [] => (s, false)
  | i :: _ => play_current env { s with current_index := some (Int.ofNat i) }

/-- `_apply_search_filter` (lines 497-503). -/
def apply_search_filter (s : State) : State :=
  { s with filtered_files := filterCatalog s.files s.search_var }

/-- `_load_files` (lines 483-494): walk the folder, keep playable files,
sort, re-filter, and clear the current index. -/
def load_files (env : Env) (s : State) : State :=
  let s := { s with files := [] }
  match s.folder with
  | none => s
  | some folder =>
    let collected := (env.walkEntries folder).filterMap (fun rf =>
      if endsWithAny (strToLower rf.2) PLAYABLE_EXTS then
        some (rf.1 ++ "/" ++ rf.2)
      else none)
    let sorted := collected.mergeSort (fun a b => decide (a ≤ b))
    let s := apply_search_filter { s with files := sorted }
    { s with current_index := none }

/-- `_apply_selected_playlist` (lines 463-472): look the active name up,
drop paths that no longer exist, install the result as the working catalog
and re-apply the search filter.  The stored mapping is not touched. -/
def apply_selected_playlist (env : Env) (s : State) : State :=
  let name := s.current_playlist
  if name = "" ∨ name = "(None)" then s
  else
    let files := ((s.playlists.lookup name).getD []).filter env.pathExists
    apply_search_filter { s with files := files }

/-- `_save_playlists` (lines 409-415): rewrite the persisted document. -/
def save_playlists (s : State) : State :=
  { s with saved_playlists := s.playlists }

/-- `_playlist_new` (lines 427-436): `name` is the dialog result. -/
def playlist_new (name : Option String) (s : State) : State × List Warning :=
  match name with
  | none => (s, [])
  | some n =>
    if n = "" then (s, [])
    else if (s.playlists.lookup n).isSome then (s, [Warning.duplicateName])
    else (save_playlists { s with playlists := s.playlists ++ [(n, [])] }, [])

/-- Event-loop delivery of the first pending `after` callback (tkinter pops
the callback before invoking it, leaving `_after_id` stale). -/
def deliver_first (env : Env) (pick : Nat) (s : State) : State × Bool :=
  match s.sched with
  | [] => (s, false)
  | e :: rest =>
    let s := { s with sched := rest }
    match e.cb with
    | CB.tick =>
      let r := tick_countdown s
      if r.2 then play_next env pick r.1 else (r.1, false)
    | CB.playNextCB => play_next env pick s

/-- Repeated event-loop delivery (sequential mode never uses `pick`). -/
def deliver_steps (env : Env) (pick : Nat) : Nat → State → State
  | 0, s => s
  | k + 1, s => deliver_steps env pick k (deliver_first env pick s).1

/-- Deliver pending tick callbacks only, counting how many times the expiry
branch would have invoked the `onExpire` callback (`play_next`), and without
executing `play_next` itself: this isolates one arm/tick/cancel cycle of the
countdown timer from the re-arm that `play_next` performs. -/
def iter_deliver_ticks : Nat → State → State × Nat
  | 0, s => (s, 0)
  | k + 1, s =>
    match s.sched with
    | e :: rest =>
      match e.cb with
      | CB.tick =>
        let r := tick_countdown { s with sched := rest }
        let r2 := iter_deliver_ticks k r.1
        (r2.1, (if r.2 then 1 else 0) + r2.2)
      | CB.playNextCB => (s, 0)
    | [] => (s, 0)

/-- The user-facing operations of claim C10. -/
inductive Op where
  | start
  | stop
  | pause
  | next (pick : Nat)
  | prev (pick : Nat)
  deriving DecidableEq, Repr

/-- Run one user-facing operation. -/
def step_op (env : Env) (op : Op) (s : State) : State :=
  match op with
  | Op.start => (start env s).1
  | Op.stop => stop s
  | Op.pause => toggle_pause s
  | Op.next p => (play_next env p s).1
  | Op.prev p => (play_prev env p s).1

/-- Run a sequence of user-facing operations. -/
def run_ops (env : Env) (ops : List Op) (s : State) : State :=
  ops.foldl (fun t op => step_op env op t) s

/-- The state built by `__init__` (lines 207-241); `progress_maximum` is the
ttk Progressbar default. -/
def initState : State :=
  { folder := none, files := [], filtered_files := [], current_index := none,
    is_running := false, is_paused := false, shuffle := true,
    interval_seconds := 30, loop_videos := false, vlc_instance := false,
    vlc_player := false, search_var := "", playlists := [],
    saved_playlists := [], current_playlist := "(None)", after_id := none,
    sched := [], next_after_id := 0, video_stop_timer := none,
    countdown_seconds_left := 0, progress_maximum := 100, progress_value := 0,
    displayed := none }

/-- Countdown invariant of the spec: `0 ≤ remaining ≤ total`. -/
def cdInv (s : State) : Prop :=
  0 ≤ s.countdown_seconds_left ∧ s.countdown_seconds_left ≤ s.progress_maximum

/-- At most one pending callback, and it is the one `_after_id` refers to. -/
def schedOne (s : State) : Prop :=
  (∀ e ∈ s.sched, some e.id = s.after_id) ∧ s.sched.length ≤ 1

/-- The flag invariant of claim C10. -/
def pausedImpliesRunning (s : State) : Prop :=
  s.is_paused = true → s.is_running = true

end MemePlayerFull

/-! ## The simple player (`MemePlayer.py`, class `MemePlayer`) -/

namespace MemePlayerSimple

/-- The playback-relevant state of the simple player (it has no search
filter, playlists, or countdown display; `_video_stop_timer` is the
`threading.Timer` that cuts videos off after the interval). -/
structure State where
  folder : Option String
  files : List String
  current_index : Option Int
  is_running : Bool
  is_paused : Bool
  shuffle : Bool
  interval_seconds : Int
  vlc_instance : Bool
  vlc_player : Bool
  after_id : Option Nat
  sched : List Pending
  next_after_id : Nat
  video_stop_timer : Option Int
  displayed : Option Shown
  deriving DecidableEq, Repr

/-- `self._after_id = self.after(delayMs, cb)`. -/
def after_schedule (delayMs : Int) (cb : CB) (s : State) : State :=
  { s with sched := s.sched ++ [⟨s.next_after_id, delayMs, cb⟩],
           after_id := some s.next_after_id,
           next_after_id := s.next_after_id + 1 }

/-- `_cancel_timers` (lines 343-349): only clears the pending callback. -/
def cancel_timers (s : State) : State :=
  match s.after_id with
  | none => s
  | some i =>
    { s with sched := s.sched.filter (fun e => e.id != i), after_id := none }

/-- `_stop_video` (lines 330-341). -/
def stop_video (s : State) : State :=
  { s with video_stop_timer := none }

/-- `_show_image` (lines 252-265). -/
def show_image (path : String) (s : State) : State :=
  { s with displayed := some (Shown.image path) }

/-- `_show_placeholder_video` (lines 267-271). -/
def show_placeholder_video (path : String) (s : State) : State :=
  { s with displayed := some (Shown.placeholder path) }

/-- `_play_video` (lines 273-305): play through VLC and arm the
`threading.Timer` that stops the video after the interval. -/
def play_video (path : String) (s : State) : State :=
  if !s.vlc_player then s
  else { s with displayed := some (Shown.video path),
                video_stop_timer := some s.interval_seconds }

/-- `_play_current` (lines 224-250): cancel the pending callback, validate
the index, dispatch on the extension, then schedule the next `play_next`
after the interval when running and not paused. -/
def play_current (env : Env) (s : State) : State :=
  let s := cancel_timers s
  match s.current_index with
  | none => s
  | some idx =>
    if idx < 0 ∨ (s.files.length : Int) ≤ idx then s
    else
      let path := s.files.getD idx.toNat ""
      let ext := strToLower (splitextExt path)
      let s :=
        if S_IMAGE_EXTS.contains ext then show_image path (stop_video s)
        else if S_VIDEO_EXTS.contains ext then
          if !env.vlc_available then show_placeholder_video path (stop_video s)
          else play_video path s
        else s
      if s.is_running && !s.is_paused then
        after_schedule (s.interval_seconds * 1000) CB.playNextCB s
      else s

/-- `play_next` (lines 204-215); `pick` models `random.randrange(len)`. -/
def play_next (env : Env) (pick : Nat) (s : State) : State :=
  if s.files.isEmpty then s
  else if s.shuffle then
    play_current env { s with current_index := some (Int.ofNat pick) }
  else
    match s.current_index with
    | none => play_current env { s with current_index := some 0 }
    | some i =>
      play_current env
        { s with current_index := some ((i + 1) % (s.files.length : Int)) }

/-- `play_prev` (lines 190-202); `pick` models `random.randrange(len)`. -/
def play_prev (env : Env) (pick : Nat) (s : State) : State :=
  if s.files.isEmpty then s
  else if s.shuffle then
    play_current env { s with current_index := some (Int.ofNat pick) }
  else
    match s.current_index with
    | none => play_current env { s with current_index := some 0 }
    | some i =>
      play_current env
        { s with current_index := some ((i - 1) % (s.files.length : Int)) }

/-- `start` (lines 144-161). -/
def start (env : Env) (s : State) : State × List Warning :=
  if s.folder = none ∨ s.files.isEmpty then (s, [Warning.emptyCatalog])
  else
    let warns :=
      if !env.vlc_available &&
          s.files.any (fun p => endsWithAny (strToLower p) S_VIDEO_EXTS) then
        [Warning.vlcMissing]
      else []
    let s :=
      if s.vlc_instance = false && env.vlc_available then
        { s with vlc_instance := true, vlc_player := true }
      else s
    let s := { s with is_running := true, is_paused := false }
    let s := if s.current_index = none then { s with current_index := some 0 } else s
    (play_current env s, warns)

/-- `stop` (lines 163-169). -/
def stop (s : State) : State :=
  let s := { s with is_running := false, is_paused := false }
  let s := stop_video (cancel_timers s)
  { s with displayed := none }

/-- `toggle_pause` (lines 171-188). -/
def toggle_pause (s : State) : State :=
  if !s.is_running then s
  else if s.is_paused then
    let s := { s with is_paused := false }
    if s.after_id = none then
      after_schedule (s.interval_seconds * 1000) CB.playNextCB s
    else s
  else
    cancel_timers { s with is_paused := true }

/-- The user-facing operations of claim C10 for the simple player. -/
inductive Op where
  | start
  | stop
  | pause
  | next (pick : Nat)
  | prev (pick : Nat)
  deriving DecidableEq, Repr

/-- Run one user-facing operation. -/
def step_op (env : Env) (op : Op) (s : State) : State :=
  match op with
  | Op.start => (start env s).1
  | Op.stop => stop s
  | Op.pause => toggle_pause s
  | Op.next p => play_next env p s
  | Op.prev p => play_prev env p s

/-- Run a sequence of user-facing operations. -/
def run_ops (env : Env) (ops : List Op) (s : State) : State :=
  ops.foldl (fun t op => step_op env op t) s

/-- The state built by `__init__` (lines 41-62). -/
def initState : State :=
  { folder := none, files := [], current_index := none, is_running := false,
    is_paused := false, shuffle := true, interval_seconds := 30,
    vlc_instance := false, vlc_player := false, after_id := none, sched := [],
    next_after_id := 0, video_stop_timer := none, displayed := none }

/-- The flag invariant of claim C10. -/
def pausedImpliesRunning (s : State) : Prop :=
  s.is_paused = true → s.is_running = true

end MemePlayerSimple

/-! ## Concrete environments and states used by witnesses, counterexamples
and failing-input evaluations -/

/-- Environment without VLC; every path exists; empty filesystem walk. -/
def envPlain : Env :=
  { vlc_available := false, vlc_init_ok := false, pathExists := fun _ => true,
    durationMs := fun _ => none, walkEntries := fun _ => [] }

/-- Environment with a working VLC; durations unknown. -/
def envVlc : Env :=
  { vlc_available := true, vlc_init_ok := true, pathExists := fun _ => true,
    durationMs := fun _ => none, walkEntries := fun _ => [] }

/-- Environment where `/memes/gone.png` has been deleted from disk. -/
def envFaves : Env :=
  { envPlain with pathExists := fun p => p != "/memes/gone.png" }

/-- Environment with VLC and a known 3000 ms duration for `/memes/v.mp4`. -/
def envLoop : Env :=
  { vlc_available := true, vlc_init_ok := true, pathExists := fun _ => true,
    durationMs := fun p => if p = "/memes/v.mp4" then some 3000 else none,
    walkEntries := fun _ => [] }

/-- A running full player over three images, sequential mode, item 0. -/
def runningImgState : MemePlayerFull.State :=
  { MemePlayerFull.initState with
      folder := some "/memes",
      files := ["/memes/a.png", "/memes/b.png", "/memes/c.png"],
      filtered_files := ["/memes/a.png", "/memes/b.png", "/memes/c.png"],
      shuffle := false, is_running := true, current_index := some 0 }

/-- `runningImgState` with an armed countdown: pending tick callback 7,
3 of 30 seconds left. -/
def armedState : MemePlayerFull.State :=
  { runningImgState with
      after_id := some 7, sched := [⟨7, 1000, CB.tick⟩], next_after_id := 8,
      countdown_seconds_left := 3, progress_maximum := 30, progress_value := 27 }

/-- A stopped full player over the same three images. -/
def stoppedImgState : MemePlayerFull.State :=
  { runningImgState with is_running := false, current_index := none }

/-- `runningImgState` in shuffle mode. -/
def shuffleState : MemePlayerFull.State :=
  { runningImgState with shuffle := true }

/-- Full player whose current index (2) will fall outside the view once the
search query `"b"` is applied. -/
def staleIndexState : MemePlayerFull.State :=
  { runningImgState with current_index := some 2, search_var := "b" }

/-- `staleIndexState` after the search filter has been applied: the view
has shrunk to one file while the index is still 2. -/
def shrunkState : MemePlayerFull.State :=
  MemePlayerFull.apply_search_filter staleIndexState

/-- Full player with a stored playlist `"faves"` of two paths, one of which
no longer exists on disk under `envFaves`. -/
def favesState : MemePlayerFull.State :=
  { MemePlayerFull.initState with
      current_playlist := "faves",
      playlists := [("faves", ["/memes/keep.png", "/memes/gone.png"])],
      saved_playlists := [("faves", ["/memes/keep.png", "/memes/gone.png"])] }

/-- Running full player showing a video with the loop-videos flag set,
sequential mode, VLC present. -/
def loopState : MemePlayerFull.State :=
  { MemePlayerFull.initState with
      files := ["/memes/v.mp4", "/memes/a.png"],
      filtered_files := ["/memes/v.mp4", "/memes/a.png"],
      shuffle := false, is_running := true, current_index := some 0,
      loop_videos := true, vlc_instance := true, vlc_player := true }

/-- A running simple player over three images, sequential mode, item 0,
with a pending interval callback (id 4). -/
def simpleRunningState : MemePlayerSimple.State :=
  { MemePlayerSimple.initState with
      folder := some "/memes",
      files := ["/memes/a.png", "/memes/b.png", "/memes/c.png"],
      shuffle := false, is_running := true, current_index := some 0,
      after_id := some 4, sched := [⟨4, 30000, CB.playNextCB⟩],
      next_after_id := 5 }

/-- A stopped simple player over the same three images. -/
def stoppedSimpleState : MemePlayerSimple.State :=
  { simpleRunningState with
      is_running := false, current_index := none, after_id := none,
      sched := [] }

/-- `simpleRunningState` in shuffle mode. -/
def shuffleSimpleState : MemePlayerSimple.State :=
  { simpleRunningState with shuffle := true }

/-! ## Helper lemmas: the full player's rendering and timer helpers do not
touch the selection or the run/pause flags -/

section FullLemmas
open MemePlayerFull

@[simp] theorem full_as_index (d c) (s : State) :
    (after_schedule d c s).current_index = s.current_index := rfl

@[simp] theorem full_as_running (d c) (s : State) :
    (after_schedule d c s).is_running = s.is_running := rfl

@[simp] theorem full_as_paused (d c) (s : State) :
    (after_schedule d c s).is_paused = s.is_paused := rfl

@[simp] theorem full_ct_index (s : State) :
    (cancel_timers s).current_index = s.current_index := by
  unfold cancel_timers; cases s.after_id <;> rfl

@[simp] theorem full_ct_running (s : State) :
    (cancel_timers s).is_running = s.is_running := by
  unfold cancel_timers; cases s.after_id <;> rfl

@[simp] theorem full_ct_paused (s : State) :
    (cancel_timers s).is_paused = s.is_paused := by
  unfold cancel_timers; cases s.after_id <;> rfl

@[simp] theorem full_ct_filtered (s : State) :
    (cancel_timers s).filtered_files = s.filtered_files := by
  unfold cancel_timers; cases s.after_id <;> rfl

@[simp] theorem full_ct_interval (s : State) :
    (cancel_timers s).interval_seconds = s.interval_seconds := by
  unfold cancel_timers; cases s.after_id <;> rfl

@[simp] theorem full_ct_shuffle (s : State) :
    (cancel_timers s).shuffle = s.shuffle := by
  unfold cancel_timers; cases s.after_id <;> rfl

@[simp] theorem full_ct_max (s : State) :
    (cancel_timers s).progress_maximum = s.progress_maximum := by
  unfold cancel_timers; cases s.after_id <;> rfl

@[simp] theorem full_ct_next_id (s : State) :
    (cancel_timers s).next_after_id = s.next_after_id := by
  unfold cancel_timers; cases s.after_id <;> rfl

@[simp] theorem full_sv_index (s : State) :
    (stop_video s).current_index = s.current_index := rfl

@[simp] theorem full_sv_running (s : State) :
    (stop_video s).is_running = s.is_running := rfl

@[simp] theorem full_sv_paused (s : State) :
    (stop_video s).is_paused = s.is_paused := rfl

@[simp] theorem full_si_index (p) (s : State) :
    (show_image p s).current_index = s.current_index := rfl

@[simp] theorem full_si_running (p) (s : State) :
    (show_image p s).is_running = s.is_running := rfl

@[simp] theorem full_si_paused (p) (s : State) :
    (show_image p s).is_paused = s.is_paused := rfl

@[simp] theorem full_sp_index (p) (s : State) :
    (show_placeholder_video p s).current_index = s.current_index := rfl

@[simp] theorem full_sp_running (p) (s : State) :
    (show_placeholder_video p s).is_running = s.is_running := rfl

@[simp] theorem full_sp_paused (p) (s : State) :
    (show_placeholder_video p s).is_paused = s.is_paused := rfl

@[simp] theorem full_pv_index (p) (s : State) :
    (play_video p s).current_index = s.current_index := by
  unfold play_video; split <;> rfl

@[simp] theorem full_pv_running (p) (s : State) :
    (play_video p s).is_running = s.is_running := by
  unfold play_video; split <;> rfl

@[simp] theorem full_pv_paused (p) (s : State) :
    (play_video p s).is_paused = s.is_paused := by
  unfold play_video; split <;> rfl

@[simp] theorem full_tc_index (s : State) :
    ((tick_countdown s).1).current_index = s.current_index := by
  unfold tick_countdown; split
  · rfl
  · split <;> simp

@[simp] theorem full_tc_running (s : State) :
    ((tick_countdown s).1).is_running = s.is_running := by
  unfold tick_countdown; split
  · rfl
  · split <;> simp

@[simp] theorem full_tc_paused (s : State) :
    ((tick_countdown s).1).is_paused = s.is_paused := by
  unfold tick_countdown; split
  · rfl
  · split <;> simp

@[simp] theorem full_sc_index (n) (s : State) :
    ((start_countdown n s).1).current_index = s.current_index := by
  simp [start_countdown]

@[simp] theorem full_sc_running (n) (s : State) :
    ((start_countdown n s).1).is_running = s.is_running := by
  simp [start_countdown]

@[simp] theorem full_sc_paused (n) (s : State) :
    ((start_countdown n s).1).is_paused = s.is_paused := by
  simp [start_countdown]

@[simp] theorem full_scv_index (env p) (s : State) :
    ((start_countdown_for_video_loop env p s).1).current_index
      = s.current_index := by
  simp [start_countdown_for_video_loop]

@[simp] theorem full_scv_running (env p) (s : State) :
    ((start_countdown_for_video_loop env p s).1).is_running = s.is_running := by
  simp [start_countdown_for_video_loop]

@[simp] theorem full_scv_paused (env p) (s : State) :
    ((start_countdown_for_video_loop env p s).1).is_paused = s.is_paused := by
  simp [start_countdown_for_video_loop]

/-- `_play_current` never changes the current index. -/
@[simp] theorem full_pc_index (env : Env) (s : State) :
    ((play_current env s).1).current_index = s.current_index := by
  simp only [play_current]
  repeat' split
  all_goals simp

/-- `_play_current` never changes the running flag. -/
@[simp] theorem full_pc_running (env : Env) (s : State) :
    ((play_current env s).1).is_running = s.is_running := by
  simp only [play_current]
  repeat' split
  all_goals simp

/-- `_play_current` never changes the paused flag. -/
@[simp] theorem full_pc_paused (env : Env) (s : State) :
    ((play_current env s).1).is_paused = s.is_paused := by
  simp only [play_current]
  repeat' split
  all_goals simp

end FullLemmas

/-! ## Helper lemmas for the simple player -/

section SimpleLemmas
open MemePlayerSimple

@[simp] theorem simple_as_index (d c) (s : State) :
    (after_schedule d c s).current_index = s.current_index := rfl

@[simp] theorem simple_as_running (d c) (s : State) :
    (after_schedule d c s).is_running = s.is_running := rfl

@[simp] theorem simple_as_paused (d c) (s : State) :
    (after_schedule d c s).is_paused = s.is_paused := rfl

@[simp] theorem simple_ct_index (s : State) :
    (cancel_timers s).current_index = s.current_index := by
  unfold cancel_timers; cases s.after_id <;> rfl

@[simp] theorem simple_ct_running (s : State) :
    (cancel_timers s).is_running = s.is_running := by
  unfold cancel_timers; cases s.after_id <;> rfl

@[simp] theorem simple_ct_paused (s : State) :
    (cancel_timers s).is_paused = s.is_paused := by
  unfold cancel_timers; cases s.after_id <;> rfl

@[simp] theorem simple_ct_files (s : State) :
    (cancel_timers s).files = s.files := by
  unfold cancel_timers; cases s.after_id <;> rfl

@[simp] theorem simple_ct_interval (s : State) :
    (cancel_timers s).interval_seconds = s.interval_seconds := by
  unfold cancel_timers; cases s.after_id <;> rfl

@[simp] theorem simple_ct_next_id (s : State) :
    (cancel_timers s).next_after_id = s.next_after_id := by
  unfold cancel_timers; cases s.after_id <;> rfl

@[simp] theorem simple_sv_index (s : State) :
    (stop_video s).current_index = s.current_index := rfl

@[simp] theorem simple_sv_running (s : State) :
    (stop_video s).is_running = s.is_running := rfl

@[simp] theorem simple_sv_paused (s : State) :
    (stop_video s).is_paused = s.is_paused := rfl

@[simp] theorem simple_si_index (p) (s : State) :
    (show_image p s).current_index = s.current_index := rfl

@[simp] theorem simple_si_running (p) (s : State) :
    (show_image p s).is_running = s.is_running := rfl

@[simp] theorem simple_si_paused (p) (s : State) :
    (show_image p s).is_paused = s.is_paused := rfl

@[simp] theorem simple_sp_index (p) (s : State) :
    (show_placeholder_video p s).current_index = s.current_index := rfl

@[simp] theorem simple_sp_running (p) (s : State) :
    (show_placeholder_video p s).is_running = s.is_running := rfl

@[simp] theorem simple_sp_paused (p) (s : State) :
    (show_placeholder_video p s).is_paused = s.is_paused := rfl

@[simp] theorem simple_pv_index (p) (s : State) :
    (play_video p s).current_index = s.current_index := by
  unfold play_video; split <;> rfl

@[simp] theorem simple_pv_running (p) (s : State) :
    (play_video p s).is_running = s.is_running := by
  unfold play_video; split <;> rfl

@[simp] theorem simple_pv_paused (p) (s : State) :
    (play_video p s).is_paused = s.is_paused := by
  unfold play_video; split <;> rfl

/-- The simple `_play_current` never changes the current index. -/
@[simp] theorem simple_pc_index (env : Env) (s : State) :
    (play_current env s).current_index = s.current_index := by
  simp only [play_current]
  repeat' split
  all_goals simp

/-- The simple `_play_current` never changes the running flag. -/
@[simp] theorem simple_pc_running (env : Env) (s : State) :
    (play_current env s).is_running = s.is_running := by
  simp only [play_current]
  repeat' split
  all_goals simp

/-- The simple `_play_current` never changes the paused flag. -/
@[simp] theorem simple_pc_paused (env : Env) (s : State) :
    (play_current env s).is_paused = s.is_paused := by
  simp only [play_current]
  repeat' split
  all_goals simp

end SimpleLemmas

/-! ## Claim C1: sequential-mode selection -/

/-- **C1.** For every non-empty catalog in sequential (non-shuffle) mode,
`next()` sets the current index to `(current + 1) mod length` and `prev()`
sets it to `(current - 1 + length) mod length`; if the current index is
absent, both set it to `0`.  Stated for the full player (whose catalog is
`filtered_files`) and for the simple player (whose catalog is `files`). -/
theorem claim_C1_sequential_selection (env : Env) (pick : Nat)
    (s : MemePlayerFull.State) (t : MemePlayerSimple.State)
    (hs : s.shuffle = false) (hne : s.filtered_files ≠ [])
    (ht : t.shuffle = false) (htne : t.files ≠ []) :
    (s.current_index = none →
      ((MemePlayerFull.play_next env pick s).1.current_index = some 0 ∧
       (MemePlayerFull.play_prev env pick s).1.current_index = some 0)) ∧
    (∀ i : Int, s.current_index = some i →
      ((MemePlayerFull.play_next env pick s).1.current_index
          = some ((i + 1) % (s.filtered_files.length : Int)) ∧
       (MemePlayerFull.play_prev env pick s).1.current_index
          = some ((i - 1 + (s.filtered_files.length : Int))
                    % (s.filtered_files.length : Int)))) ∧
    (t.current_index = none →
      ((MemePlayerSimple.play_next env pick t).current_index = some 0 ∧
       (MemePlayerSimple.play_prev env pick t).current_index = some 0)) ∧
    (∀ i : Int, t.current_index = some i →
      ((MemePlayerSimple.play_next env pick t).current_index
          = some ((i + 1) % (t.files.length : Int)) ∧
       (MemePlayerSimple.play_prev env pick t).current_index
          = some ((i - 1 + (t.files.length : Int)) % (t.files.length : Int)))) := by
  refine ⟨?_, ?_, ?_, ?_⟩
  · intro h
    simp [MemePlayerFull.play_next, MemePlayerFull.play_prev,
      List.isEmpty_iff, hne, hs, h]
  · intro i h
    simp [MemePlayerFull.play_next, MemePlayerFull.play_prev,
      List.isEmpty_iff, hne, hs, h, Int.add_emod_self]
  · intro h
    simp [MemePlayerSimple.play_next, MemePlayerSimple.play_prev,
      List.isEmpty_iff, htne, ht, h]
  · intro i h
    simp [MemePlayerSimple.play_next, MemePlayerSimple.play_prev,
      List.isEmpty_iff, htne, ht, h, Int.add_emod_self]

/-- Witness for C1: in the concrete running players at index 0 of a
3-element catalog, `next()` goes to 1 and `prev()` wraps to 2. -/
theorem claim_C1_sequential_selection_witness :
    (MemePlayerFull.play_next envPlain 0 runningImgState).1.current_index
        = some 1 ∧
    (MemePlayerFull.play_prev envPlain 0 runningImgState).1.current_index
        = some 2 ∧
    (MemePlayerSimple.play_next envPlain 0 simpleRunningState).current_index
        = some 1 ∧
    (MemePlayerSimple.play_prev envPlain 0 simpleRunningState).current_index
        = some 2 := by
  have h := claim_C1_sequential_selection envPlain 0 runningImgState
    simpleRunningState rfl (by decide) rfl (by decide)
  refine ⟨?_, ?_, ?_, ?_⟩
  · simpa using (h.2.1 0 rfl).1
  · simpa using (h.2.1 0 rfl).2
  · simpa using (h.2.2.2 0 rfl).1
  · simpa using (h.2.2.2 0 rfl).2

/-! ## Claim C5: shuffle mode treats prev and next identically -/

/-- **C5.** In shuffle mode, for every non-empty catalog, `prev()` and
`next()` are behaviorally identical: with the same random draw `pick`
(the value of `random.randrange(length)`, whose contract is
`pick < length`) they produce identical result states, the selected index
is exactly the draw — so the selection inherits `randrange`'s uniform
distribution — and the index always lies in `[0, length)`.  Stated for both
players. -/
theorem claim_C5_shuffle_prev_next_identical (env : Env) (pick : Nat)
    (s : MemePlayerFull.State) (t : MemePlayerSimple.State)
    (hs : s.shuffle = true) (hpick : pick < s.filtered_files.length)
    (ht : t.shuffle = true) (hpickt : pick < t.files.length) :
    MemePlayerFull.play_next env pick s = MemePlayerFull.play_prev env pick s ∧
    (MemePlayerFull.play_next env pick s).1.current_index = some (pick : Int) ∧
    (0 ≤ (pick : Int) ∧ (pick : Int) < (s.filtered_files.length : Int)) ∧
    MemePlayerSimple.play_next env pick t
        = MemePlayerSimple.play_prev env pick t ∧
    (MemePlayerSimple.play_next env pick t).current_index = some (pick : Int) ∧
    (pick : Int) < (t.files.length : Int) := by
  have hne : ¬ s.filtered_files = [] := by
    intro he; rw [he] at hpick; exact absurd hpick (by simp)
  have htne : ¬ t.files = [] := by
    intro he; rw [he] at hpickt; exact absurd hpickt (by simp)
  refine ⟨?_, ?_, ⟨Int.natCast_nonneg pick, by exact_mod_cast hpick⟩, ?_, ?_,
    by exact_mod_cast hpickt⟩
  · simp [MemePlayerFull.play_next, MemePlayerFull.play_prev,
      List.isEmpty_iff, hne, hs]
  · simp [MemePlayerFull.play_next, List.isEmpty_iff, hne, hs]
  · simp [MemePlayerSimple.play_next, MemePlayerSimple.play_prev,
      List.isEmpty_iff, htne, ht]
  · simp [MemePlayerSimple.play_next, List.isEmpty_iff, htne, ht]

/-- Witness for C5: the concrete shuffle-mode players with draw 1. -/
theorem claim_C5_shuffle_prev_next_identical_witness :
    MemePlayerFull.play_next envPlain 1 shuffleState
        = MemePlayerFull.play_prev envPlain 1 shuffleState ∧
    (MemePlayerFull.play_next envPlain 1 shuffleState).1.current_index
        = some 1 ∧
    MemePlayerSimple.play_next envPlain 1 shuffleSimpleState
        = MemePlayerSimple.play_prev envPlain 1 shuffleSimpleState ∧
    (MemePlayerSimple.play_next envPlain 1 shuffleSimpleState).current_index
        = some 1 := by
  have h := claim_C5_shuffle_prev_next_identical envPlain 1 shuffleState
    shuffleSimpleState rfl (by decide) rfl (by decide)
  exact ⟨h.1, by simpa using h.2.1, h.2.2.2.1, by simpa using h.2.2.2.2.1⟩

/-! ## Claim C6: empty catalog -/

/-- **C6.** On an empty catalog, `play_next` and `play_prev` return with the
whole state unchanged (nothing rendered, index untouched), and `start`
leaves the state unchanged while surfacing the empty-catalog warning, so
the player keeps its running flag (it remains stopped when it was
stopped). -/
theorem claim_C6_empty_catalog_noop (env : Env) (pick : Nat)
    (s : MemePlayerFull.State) (h : s.filtered_files = []) :
    MemePlayerFull.play_next env pick s = (s, false) ∧
    MemePlayerFull.play_prev env pick s = (s, false) ∧
    MemePlayerFull.start env s = (s, [Warning.emptyCatalog], false) ∧
    ((MemePlayerFull.start env s).1).is_running = s.is_running := by
  refine ⟨?_, ?_, ?_, ?_⟩ <;>
    simp [MemePlayerFull.play_next, MemePlayerFull.play_prev,
      MemePlayerFull.start, h]

/-- Witness for C6: the freshly initialized player has an empty catalog;
all three operations leave it untouched and `start` warns. -/
theorem claim_C6_empty_catalog_noop_witness :
    MemePlayerFull.play_next envPlain 0 MemePlayerFull.initState
        = (MemePlayerFull.initState, false) ∧
    MemePlayerFull.play_prev envPlain 0 MemePlayerFull.initState
        = (MemePlayerFull.initState, false) ∧
    MemePlayerFull.start envPlain MemePlayerFull.initState
        = (MemePlayerFull.initState, [Warning.emptyCatalog], false) ∧
    ((MemePlayerFull.start envPlain MemePlayerFull.initState).1).is_running
        = false := by
  have h := claim_C6_empty_catalog_noop envPlain 0 MemePlayerFull.initState rfl
  exact ⟨h.1, h.2.1, h.2.2.1, by simpa using h.2.2.2⟩

/-! ## Claim C7: the search filter is an identity for the empty query and
idempotent -/

/-- **C7.** Filtering with the empty query returns the catalog unchanged;
filtering (a case-insensitive substring match on the file name, after
stripping the query) is idempotent; and `_apply_search_filter` installs
exactly `filterCatalog files query` as the filtered view. -/
theorem claim_C7_filter_identity_idempotent :
    (∀ files : List String, filterCatalog files "" = files) ∧
    (∀ (files : List String) (q : String),
        filterCatalog (filterCatalog files q) q = filterCatalog files q) ∧
    (∀ s : MemePlayerFull.State,
        (MemePlayerFull.apply_search_filter s).filtered_files
          = filterCatalog s.files s.search_var) := by
  have hemp : strToLower (strTrim "") = "" := by decide
  refine ⟨fun files => by simp [filterCatalog, hemp], fun files q => ?_,
    fun s => rfl⟩
  by_cases hq : strToLower (strTrim q) = ""
  · simp [filterCatalog, hq]
  · simp [filterCatalog, hq, List.filter_filter]

/-! ## Claim C8: playlist activation -/

/-- **C8.** Activating the selected stored playlist installs, as the working
catalog, exactly the stored paths that still exist on disk, in stored
order, while leaving both the in-memory playlist mapping and the persisted
document (`saved_playlists`) unchanged; the filtered view is the search
filter applied to that catalog. -/
theorem claim_C8_activate_playlist_frame (env : Env)
    (s : MemePlayerFull.State)
    (h1 : s.current_playlist ≠ "") (h2 : s.current_playlist ≠ "(None)") :
    (MemePlayerFull.apply_selected_playlist env s).files
        = ((s.playlists.lookup s.current_playlist).getD []).filter
            env.pathExists ∧
    (MemePlayerFull.apply_selected_playlist env s).playlists = s.playlists ∧
    (MemePlayerFull.apply_selected_playlist env s).saved_playlists
        = s.saved_playlists ∧
    (MemePlayerFull.apply_selected_playlist env s).filtered_files
        = filterCatalog
            (((s.playlists.lookup s.current_playlist).getD []).filter
              env.pathExists)
            s.search_var := by
  refine ⟨?_, ?_, ?_, ?_⟩ <;>
    simp [MemePlayerFull.apply_selected_playlist,
      MemePlayerFull.apply_search_filter, h1, h2]

/-- Witness for C8 (end-to-end scenario C): playlist `"faves"` stores two
paths of which `/memes/gone.png` no longer exists; activation yields a
working catalog with only the surviving path while the stored mapping and
the persisted document still list both. -/
theorem claim_C8_activate_playlist_frame_witness :
    (MemePlayerFull.apply_selected_playlist envFaves favesState).files
        = ["/memes/keep.png"] ∧
    (MemePlayerFull.apply_selected_playlist envFaves favesState).playlists
        = [("faves", ["/memes/keep.png", "/memes/gone.png"])] ∧
    (MemePlayerFull.apply_selected_playlist envFaves favesState).saved_playlists
        = [("faves", ["/memes/keep.png", "/memes/gone.png"])] := by
  have h := claim_C8_activate_playlist_frame envFaves favesState
    (by decide) (by decide)
  refine ⟨?_, ?_, ?_⟩
  · rw [h.1]; decide
  · rw [h.2.1]; rfl
  · rw [h.2.2.1]; rfl

/-! ## Claim C3: pause discards the remaining time, resume re-arms the full
interval -/

/-- **C3.** For every running, unpaused player with an armed countdown,
`toggle_pause` (pause) cancels the pending callback and discards the
remaining time (it is reset to 0, not preserved), and a second
`toggle_pause` (resume) schedules a fresh advance whose delay is the full
current `interval_seconds * 1000` milliseconds — independent of the
remaining time the countdown had when paused, which appears nowhere in the
result.  Stated for both players. -/
theorem claim_C3_pause_resume_full_interval
    (s : MemePlayerFull.State) (i : Nat) (d : Int)
    (hr : s.is_running = true) (hp : s.is_paused = false)
    (ha : s.after_id = some i) (hq : s.sched = [⟨i, d, CB.tick⟩])
    (t : MemePlayerSimple.State) (j : Nat) (e : Int) (cb : CB)
    (htr : t.is_running = true) (htp : t.is_paused = false)
    (hta : t.after_id = some j) (htq : t.sched = [⟨j, e, cb⟩]) :
    ((MemePlayerFull.toggle_pause s).is_paused = true ∧
     (MemePlayerFull.toggle_pause s).sched = [] ∧
     (MemePlayerFull.toggle_pause s).countdown_seconds_left = 0) ∧
    ((MemePlayerFull.toggle_pause (MemePlayerFull.toggle_pause s)).is_paused
        = false ∧
     (MemePlayerFull.toggle_pause (MemePlayerFull.toggle_pause s)).sched
        = [⟨s.next_after_id, s.interval_seconds * 1000, CB.playNextCB⟩]) ∧
    ((MemePlayerSimple.toggle_pause t).is_paused = true ∧
     (MemePlayerSimple.toggle_pause t).sched = []) ∧
    ((MemePlayerSimple.toggle_pause (MemePlayerSimple.toggle_pause t)).is_paused
        = false ∧
     (MemePlayerSimple.toggle_pause (MemePlayerSimple.toggle_pause t)).sched
        = [⟨t.next_after_id, t.interval_seconds * 1000, CB.playNextCB⟩]) := by
  refine ⟨⟨?_, ?_, ?_⟩, ⟨?_, ?_⟩, ⟨?_, ?_⟩, ⟨?_, ?_⟩⟩ <;>
    simp [MemePlayerFull.toggle_pause, MemePlayerSimple.toggle_pause,
      MemePlayerFull.cancel_timers, MemePlayerSimple.cancel_timers,
      MemePlayerFull.after_schedule, MemePlayerSimple.after_schedule,
      hr, hp, ha, hq, htr, htp, hta, htq]

/-- Witness for C3: the armed concrete players; pause zeroes the remaining
3 seconds and resume schedules a fresh 30000 ms advance. -/
theorem claim_C3_pause_resume_full_interval_witness :
    (MemePlayerFull.toggle_pause armedState).countdown_seconds_left = 0 ∧
    (MemePlayerFull.toggle_pause armedState).sched = [] ∧
    (MemePlayerFull.toggle_pause (MemePlayerFull.toggle_pause armedState)).sched
        = [⟨8, 30000, CB.playNextCB⟩] ∧
    (MemePlayerSimple.toggle_pause
        (MemePlayerSimple.toggle_pause simpleRunningState)).sched
        = [⟨5, 30000, CB.playNextCB⟩] := by
  have h := claim_C3_pause_resume_full_interval armedState 7 1000 rfl rfl rfl
    rfl simpleRunningState 4 30000 CB.playNextCB rfl rfl rfl rfl
  refine ⟨h.1.2.2, h.1.2.1, ?_, ?_⟩
  · have := h.2.1.2; simpa using this
  · have := h.2.2.2.2; simpa using this

/-! ## Claim C10: the paused flag implies the running flag -/

/-- `play_next` preserves the running flag (full player). -/
@[simp] theorem full_pn_running (env : Env) (p : Nat) (s : MemePlayerFull.State) :
    ((MemePlayerFull.play_next env p s).1).is_running = s.is_running := by
  simp only [MemePlayerFull.play_next]
  repeat' split
  all_goals simp

/-- `play_next` preserves the paused flag (full player). -/
@[simp] theorem full_pn_paused (env : Env) (p : Nat) (s : MemePlayerFull.State) :
    ((MemePlayerFull.play_next env p s).1).is_paused = s.is_paused := by
  simp only [MemePlayerFull.play_next]
  repeat' split
  all_goals simp

/-- `play_prev` preserves the running flag (full player). -/
@[simp] theorem full_pp_running (env : Env) (p : Nat) (s : MemePlayerFull.State) :
    ((MemePlayerFull.play_prev env p s).1).is_running = s.is_running := by
  simp only [MemePlayerFull.play_prev]
  repeat' split
  all_goals simp

/-- `play_prev` preserves the paused flag (full player). -/
@[simp] theorem full_pp_paused (env : Env) (p : Nat) (s : MemePlayerFull.State) :
    ((MemePlayerFull.play_prev env p s).1).is_paused = s.is_paused := by
  simp only [MemePlayerFull.play_prev]
  repeat' split
  all_goals simp

/-- After a successful `start`, the full player is running and unpaused. -/
theorem full_start_flags (env : Env) (s : MemePlayerFull.State)
    (h : ¬ s.filtered_files.isEmpty = true) :
    ((MemePlayerFull.start env s).1).is_running = true ∧
    ((MemePlayerFull.start env s).1).is_paused = false := by
  simp only [MemePlayerFull.start, if_neg h]
  repeat' split
  all_goals simp

/-- Each of the five user-facing operations preserves `paused → running`
(full player). -/
theorem full_step_op_paused_running (env : Env) (op : MemePlayerFull.Op)
    (s : MemePlayerFull.State) (h : MemePlayerFull.pausedImpliesRunning s) :
    MemePlayerFull.pausedImpliesRunning (MemePlayerFull.step_op env op s) := by
  cases op with
  | start =>
    by_cases he : s.filtered_files.isEmpty
    · simpa [MemePlayerFull.step_op, MemePlayerFull.start, he] using h
    · intro hp
      exact (full_start_flags env s he).1
  | stop =>
    intro hp
    simp [MemePlayerFull.step_op, MemePlayerFull.stop] at hp
  | pause =>
    by_cases hr : s.is_running
    · by_cases hpau : s.is_paused
      · intro hp
        simp only [MemePlayerFull.step_op, MemePlayerFull.toggle_pause,
          hr, hpau]
        repeat' split
        all_goals simp_all
      · intro hp
        simp [MemePlayerFull.step_op, MemePlayerFull.toggle_pause, hr, hpau]
    · simpa [MemePlayerFull.step_op, MemePlayerFull.toggle_pause, hr] using h
  | next p =>
    intro hp
    simp only [MemePlayerFull.step_op, full_pn_paused] at hp
    simp only [MemePlayerFull.step_op, full_pn_running]
    exact h hp
  | prev p =>
    intro hp
    simp only [MemePlayerFull.step_op, full_pp_paused] at hp
    simp only [MemePlayerFull.step_op, full_pp_running]
    exact h hp

/-- `play_next` preserves the running flag (simple player). -/
@[simp] theorem simple_pn_running (env : Env) (p : Nat)
    (s : MemePlayerSimple.State) :
    (MemePlayerSimple.play_next env p s).is_running = s.is_running := by
  simp only [MemePlayerSimple.play_next]
  repeat' split
  all_goals simp

/-- `play_next` preserves the paused flag (simple player). -/
@[simp] theorem simple_pn_paused (env : Env) (p : Nat)
    (s : MemePlayerSimple.State) :
    (MemePlayerSimple.play_next env p s).is_paused = s.is_paused := by
  simp only [MemePlayerSimple.play_next]
  repeat' split
  all_goals simp

/-- `play_prev` preserves the running flag (simple player). -/
@[simp] theorem simple_pp_running (env : Env) (p : Nat)
    (s : MemePlayerSimple.State) :
    (MemePlayerSimple.play_prev env p s).is_running = s.is_running := by
  simp only [MemePlayerSimple.play_prev]
  repeat' split
  all_goals simp

/-- `play_prev` preserves the paused flag (simple player). -/
@[simp] theorem simple_pp_paused (env : Env) (p : Nat)
    (s : MemePlayerSimple.State) :
    (MemePlayerSimple.play_prev env p s).is_paused = s.is_paused := by
  simp only [MemePlayerSimple.play_prev]
  repeat' split
  all_goals simp

/-- After a successful `start`, the simple player is running and unpaused. -/
theorem simple_start_flags (env : Env) (s : MemePlayerSimple.State)
    (hcond : ¬ (s.folder = none ∨ s.files.isEmpty = true)) :
    ((MemePlayerSimple.start env s).1).is_running = true ∧
    ((MemePlayerSimple.start env s).1).is_paused = false := by
  simp only [MemePlayerSimple.start, if_neg hcond]
  repeat' split
  all_goals simp

/-- Each of the five user-facing operations preserves `paused → running`
(simple player). -/
theorem simple_step_op_paused_running (env : Env) (op : MemePlayerSimple.Op)
    (s : MemePlayerSimple.State)
    (h : MemePlayerSimple.pausedImpliesRunning s) :
    MemePlayerSimple.pausedImpliesRunning (MemePlayerSimple.step_op env op s) := by
  cases op with
  | start =>
    by_cases he : s.folder = none ∨ s.files.isEmpty = true
    · have hs : MemePlayerSimple.step_op env MemePlayerSimple.Op.start s = s := by
        simp only [MemePlayerSimple.step_op, MemePlayerSimple.start, if_pos he]
      rw [hs]; exact h
    · intro hp
      exact (simple_start_flags env s he).1
  | stop =>
    intro hp
    simp [MemePlayerSimple.step_op, MemePlayerSimple.stop] at hp
  | pause =>
    by_cases hr : s.is_running
    · by_cases hpau : s.is_paused
      · intro hp
        simp only [MemePlayerSimple.step_op, MemePlayerSimple.toggle_pause,
          hr, hpau]
        repeat' split
        all_goals simp_all
      · intro hp
        simp [MemePlayerSimple.step_op, MemePlayerSimple.toggle_pause, hr, hpau]
    · simpa [MemePlayerSimple.step_op, MemePlayerSimple.toggle_pause, hr] using h
  | next p =>
    intro hp
    simp only [MemePlayerSimple.step_op, simple_pn_paused] at hp
    simp only [MemePlayerSimple.step_op, simple_pn_running]
    exact h hp
  | prev p =>
    intro hp
    simp only [MemePlayerSimple.step_op, simple_pp_paused] at hp
    simp only [MemePlayerSimple.step_op, simple_pp_running]
    exact h hp

/-- **C10.** For every sequence of `start`/`stop`/`toggle_pause`/
`play_next`/`play_prev` operations, the invariant "the paused flag implies
the running flag" is preserved, and from the initial state it always holds:
the player is never paused while stopped.  Stated for both players. -/
theorem claim_C10_paused_implies_running :
    (∀ (env : Env) (ops : List MemePlayerFull.Op) (s : MemePlayerFull.State),
        MemePlayerFull.pausedImpliesRunning s →
        MemePlayerFull.pausedImpliesRunning (MemePlayerFull.run_ops env ops s)) ∧
    (∀ (env : Env) (ops : List MemePlayerFull.Op),
        MemePlayerFull.pausedImpliesRunning
          (MemePlayerFull.run_ops env ops MemePlayerFull.initState)) ∧
    (∀ (env : Env) (ops : List MemePlayerSimple.Op)
        (t : MemePlayerSimple.State),
        MemePlayerSimple.pausedImpliesRunning t →
        MemePlayerSimple.pausedImpliesRunning
          (MemePlayerSimple.run_ops env ops t)) ∧
    (∀ (env : Env) (ops : List MemePlayerSimple.Op),
        MemePlayerSimple.pausedImpliesRunning
          (MemePlayerSimple.run_ops env ops MemePlayerSimple.initState)) := by
  have hfull : ∀ (env : Env) (ops : List MemePlayerFull.Op)
      (s : MemePlayerFull.State), MemePlayerFull.pausedImpliesRunning s →
      MemePlayerFull.pausedImpliesRunning (MemePlayerFull.run_ops env ops s) := by
    intro env ops
    induction ops with
    | nil => intro s h; exact h
    | cons op rest ih =>
      intro s h
      exact ih _ (full_step_op_paused_running env op s h)
  have hsimple : ∀ (env : Env) (ops : List MemePlayerSimple.Op)
      (t : MemePlayerSimple.State), MemePlayerSimple.pausedImpliesRunning t →
      MemePlayerSimple.pausedImpliesRunning
        (MemePlayerSimple.run_ops env ops t) := by
    intro env ops
    induction ops with
    | nil => intro t h; exact h
    | cons op rest ih =>
      intro t h
      exact ih _ (simple_step_op_paused_running env op t h)
  exact ⟨hfull, fun env ops => hfull env ops _ (fun hp => absurd hp (by decide)),
    hsimple, fun env ops => hsimple env ops _ (fun hp => absurd hp (by decide))⟩

/-- Witness for C10: after `start` then `toggle_pause` from a stopped state
with a catalog, the players are paused and (by the theorem) running — the
invariant application is non-vacuous. -/
theorem claim_C10_paused_implies_running_witness :
    (MemePlayerFull.run_ops envPlain
        [MemePlayerFull.Op.start, MemePlayerFull.Op.pause]
        stoppedImgState).is_paused = true ∧
    (MemePlayerFull.run_ops envPlain
        [MemePlayerFull.Op.start, MemePlayerFull.Op.pause]
        stoppedImgState).is_running = true ∧
    (MemePlayerSimple.run_ops envPlain
        [MemePlayerSimple.Op.start, MemePlayerSimple.Op.pause]
        stoppedSimpleState).is_paused = true ∧
    (MemePlayerSimple.run_ops envPlain
        [MemePlayerSimple.Op.start, MemePlayerSimple.Op.pause]
        stoppedSimpleState).is_running = true := by
  refine ⟨by decide, ?_, by decide, ?_⟩
  · exact claim_C10_paused_implies_running.1 envPlain
      [MemePlayerFull.Op.start, MemePlayerFull.Op.pause] stoppedImgState
      (fun hp => absurd hp (by decide)) (by decide)
  · exact claim_C10_paused_implies_running.2.2.1 envPlain
      [MemePlayerSimple.Op.start, MemePlayerSimple.Op.pause] stoppedSimpleState
      (fun hp => absurd hp (by decide)) (by decide)

/-! ## Claim C4: index validity across operations -/

/-- **C4 counterexample.** The claim "after every operation the current
index is either absent or a valid index into the current filtered view; when
the view shrinks below the current index, the index is clamped or cleared"
is false on the code: applying the search query `"b"` to a player standing
at index 2 of a 3-file catalog shrinks the view to a single file while the
index stays 2 — neither clamped nor cleared, and not a valid index of the
1-element view. -/
theorem claim_C4_index_validity_counterexample :
    (MemePlayerFull.apply_search_filter staleIndexState).current_index
        = some 2 ∧
    (MemePlayerFull.apply_search_filter staleIndexState).filtered_files
        = ["/memes/b.png"] := by
  exact ⟨rfl, by decide⟩

/-- **C4 (amended).** After a folder load (with a folder selected) the
current index is cleared, and a double-click selection installs the selected
row as the index (valid whenever the row is a valid row of the filtered
view); but a search-filter change and a playlist activation leave the
current index unchanged, so a view that shrinks below it leaves it out of
range; an out-of-range index merely makes `_play_current` a no-op beyond
its initial timer cancellation (no clamp, no clear, no crash). -/
theorem claim_C4_amended_index_discipline (env : Env)
    (s : MemePlayerFull.State) (f : String) (i : Nat) (rest : List Nat)
    (idx : Int) :
    (s.folder = some f →
      (MemePlayerFull.load_files env s).current_index = none) ∧
    ((MemePlayerFull.apply_search_filter s).current_index = s.current_index) ∧
    ((MemePlayerFull.apply_selected_playlist env s).current_index
        = s.current_index) ∧
    (((MemePlayerFull.on_list_double env (i :: rest) s).1).current_index
        = some (Int.ofNat i)) ∧
    (s.current_index = some idx → (s.filtered_files.length : Int) ≤ idx →
      MemePlayerFull.play_current env s
        = (MemePlayerFull.cancel_timers s, false)) := by
  refine ⟨?_, rfl, ?_, ?_, ?_⟩
  · intro h
    simp [MemePlayerFull.load_files, h, MemePlayerFull.apply_search_filter]
  · simp only [MemePlayerFull.apply_selected_playlist]
    split <;> rfl
  · simp [MemePlayerFull.on_list_double]
  · intro h1 h2
    have hc : (MemePlayerFull.cancel_timers s).current_index = some idx := by
      simp [h1]
    simp only [MemePlayerFull.play_current, hc, full_ct_filtered]
    rw [if_pos (Or.inr h2)]

/-- Witness for the amended C4 at the concrete shrunken state: folder load
clears the index, selecting row 1 installs index 1, and `_play_current`
with the stale index 2 over the 1-element view is a no-op beyond the timer
cancellation. -/
theorem claim_C4_amended_index_discipline_witness :
    (MemePlayerFull.load_files envPlain shrunkState).current_index = none ∧
    ((MemePlayerFull.on_list_double envPlain [1] shrunkState).1).current_index
        = some 1 ∧
    MemePlayerFull.play_current envPlain shrunkState
        = (MemePlayerFull.cancel_timers shrunkState, false) := by
  have h := claim_C4_amended_index_discipline envPlain shrunkState "/memes" 1
    [] 2
  exact ⟨h.1 rfl, by simpa using h.2.2.2.1, h.2.2.2.2 rfl (by decide)⟩

/-! ## Claim C2: countdown invariants and exactly-once expiry -/

/-- When at most one callback is pending and it is the one `_after_id`
refers to, `_cancel_timers` empties the pending queue and clears the id. -/
theorem full_schedOne_cancel_sched (s : MemePlayerFull.State)
    (h : MemePlayerFull.schedOne s) :
    (MemePlayerFull.cancel_timers s).sched = [] ∧
    (MemePlayerFull.cancel_timers s).after_id = none := by
  obtain ⟨hall, hlen⟩ := h
  unfold MemePlayerFull.cancel_timers
  cases ha : s.after_id with
  | none =>
    refine ⟨?_, ha⟩
    cases hs : s.sched with
    | nil => rfl
    | cons e t =>
      have := hall e (by rw [hs]; exact List.mem_cons_self e t)
      rw [ha] at this
      exact absurd this (by simp)
  | some i =>
    refine ⟨?_, rfl⟩
    simp only []
    rw [List.filter_eq_nil_iff]
    intro e he
    have := hall e he
    rw [ha] at this
    simp [Option.some.inj this]

/-- If no callback is pending, iterated tick delivery does nothing. -/
theorem full_iter_ticks_empty (k : Nat) (s : MemePlayerFull.State)
    (h : s.sched = []) :
    MemePlayerFull.iter_deliver_ticks k s = (s, 0) := by
  cases k <;> simp [MemePlayerFull.iter_deliver_ticks, h]

/-- Delivering tick callbacks to a running, unpaused player whose only
pending callback is a tick and whose remaining time is `m` seconds fires
the expiry (the `play_next` call of `_tick_countdown`) exactly at delivery
`m + 1` and never again: the total number of expiry firings over `k`
deliveries is 1 when `k ≥ m + 1` and 0 otherwise. -/
theorem full_tick_chain_count (k : Nat) :
    ∀ (s : MemePlayerFull.State) (m : Nat) (i : Nat) (d : Int),
    s.is_running = true → s.is_paused = false →
    s.countdown_seconds_left = (m : Int) → s.sched = [⟨i, d, CB.tick⟩] →
    (MemePlayerFull.iter_deliver_ticks k s).2 = if m + 1 ≤ k then 1 else 0 := by
  induction k with
  | zero =>
    intro s m i d hr hp hl hs
    simp [MemePlayerFull.iter_deliver_ticks]
  | succ k ih =>
    intro s m i d hr hp hl hs
    cases m with
    | zero =>
      have hexp : MemePlayerFull.tick_countdown { s with sched := [] }
          = ({ { s with sched := [] } with
                progress_value := s.progress_maximum }, true) := by
        unfold MemePlayerFull.tick_countdown
        rw [if_neg (by simp [hr, hp]), if_pos (by simp [hl])]
      rw [MemePlayerFull.iter_deliver_ticks, hs]
      simp [hexp, full_iter_ticks_empty]
    | succ j =>
      have hstep : MemePlayerFull.tick_countdown { s with sched := [] }
          = (MemePlayerFull.after_schedule 1000 CB.tick
              { { s with sched := [] } with
                  progress_value := s.progress_value + 1,
                  countdown_seconds_left := s.countdown_seconds_left - 1 },
             false) := by
        unfold MemePlayerFull.tick_countdown
        rw [if_neg (by simp [hr, hp]), if_neg (by rw [hl]; omega)]
      have hexpand : (MemePlayerFull.iter_deliver_ticks (k + 1) s).2
          = (MemePlayerFull.iter_deliver_ticks k
              (MemePlayerFull.after_schedule 1000 CB.tick
                { { s with sched := [] } with
                    progress_value := s.progress_value + 1,
                    countdown_seconds_left :=
                      s.countdown_seconds_left - 1 })).2 := by
        rw [MemePlayerFull.iter_deliver_ticks, hs]
        simp [hstep]
      rw [hexpand,
        ih _ j s.next_after_id 1000
          (by simp [MemePlayerFull.after_schedule, hr])
          (by simp [MemePlayerFull.after_schedule, hp])
          (by simp [MemePlayerFull.after_schedule, hl]; try omega)
          (by simp [MemePlayerFull.after_schedule])]
      by_cases hjk : j + 1 ≤ k
      · rw [if_pos hjk, if_pos (by omega)]
      · rw [if_neg hjk, if_neg (by omega)]

/-- Field characterization of the state right after `_start_countdown n`
(for `n ≥ 1`, a running unpaused player, and a well-formed pending queue):
the remaining time is `n - 1` (the first tick ran synchronously), the
total is `n`, and exactly one tick callback is pending. -/
theorem full_armed_fields (s : MemePlayerFull.State) (n : Nat)
    (hr : s.is_running = true) (hp : s.is_paused = false)
    (hone : MemePlayerFull.schedOne s) (hn : 1 ≤ n) :
    ((MemePlayerFull.start_countdown (n : Int) s).1).countdown_seconds_left
        = (n : Int) - 1 ∧
    ((MemePlayerFull.start_countdown (n : Int) s).1).progress_maximum
        = (n : Int) ∧
    ((MemePlayerFull.start_countdown (n : Int) s).1).progress_value = 1 ∧
    ((MemePlayerFull.start_countdown (n : Int) s).1).sched
        = [⟨s.next_after_id, 1000, CB.tick⟩] ∧
    ((MemePlayerFull.start_countdown (n : Int) s).1).after_id
        = some s.next_after_id := by
  have hn' : ¬ ((n : Int) ≤ 0) := by omega
  have hcs := full_schedOne_cancel_sched s hone
  refine ⟨?_, ?_, ?_, ?_, ?_⟩ <;>
    simp [MemePlayerFull.start_countdown, MemePlayerFull.tick_countdown,
      MemePlayerFull.after_schedule, hr, hp, hn', hcs.1]

/-- **C2 counterexample.** The claim asserts the expiry callback fires
exactly once per `arm()` call, "never zero or twice, even if cancel()
races with a near-zero tick".  In the code a cancel between ticks removes
the pending callback for good: arming a 2-second countdown on the concrete
running player and then calling `_cancel_timers` makes every subsequent
delivery fire the expiry zero times — the armed countdown fires zero
times, not once. -/
theorem claim_C2_countdown_counterexample :
    (MemePlayerFull.iter_deliver_ticks 10
      (MemePlayerFull.cancel_timers
        ((MemePlayerFull.start_countdown 2 runningImgState).1))).2 = 0 := by
  decide

/-- **C2 (amended).** For every running, unpaused player with a well-formed
pending queue, arming an `n ≥ 1` second countdown establishes the invariant
`0 ≤ remaining ≤ total`; the tick and the cancel preserve that invariant on
any state; arming cancels any existing timer first (the queue is emptied
before the new tick is scheduled) and leaves at most one pending callback;
and the armed countdown, when not cancelled, paused, or stopped before
expiry, fires its expiry (`play_next`) exactly once — a `cancel()` before
expiry makes it fire zero times (see the counterexample), never twice. -/
theorem claim_C2_amended_countdown (s : MemePlayerFull.State) (n : Nat)
    (hr : s.is_running = true) (hp : s.is_paused = false)
    (hone : MemePlayerFull.schedOne s) (hn : 1 ≤ n) :
    MemePlayerFull.cdInv ((MemePlayerFull.start_countdown (n : Int) s).1) ∧
    (∀ s' : MemePlayerFull.State, MemePlayerFull.cdInv s' →
      MemePlayerFull.cdInv ((MemePlayerFull.tick_countdown s').1) ∧
      MemePlayerFull.cdInv (MemePlayerFull.cancel_timers s')) ∧
    (MemePlayerFull.cancel_timers s).sched = [] ∧
    MemePlayerFull.schedOne ((MemePlayerFull.start_countdown (n : Int) s).1) ∧
    (∀ k : Nat, n ≤ k →
      (MemePlayerFull.iter_deliver_ticks k
        ((MemePlayerFull.start_countdown (n : Int) s).1)).2 = 1) := by
  have hfix := full_armed_fields s n hr hp hone hn
  have hcs := full_schedOne_cancel_sched s hone
  refine ⟨?_, ?_, hcs.1, ?_, ?_⟩
  · exact ⟨by rw [hfix.1]; omega, by rw [hfix.1, hfix.2.1]; omega⟩
  · intro s' h'
    obtain ⟨h1, h2⟩ := h'
    constructor
    · unfold MemePlayerFull.tick_countdown
      split
      · exact ⟨h1, h2⟩
      · split
        · exact ⟨h1, h2⟩
        · rename_i hpos
          refine ⟨?_, ?_⟩ <;>
            simp [MemePlayerFull.after_schedule] <;> omega
    · unfold MemePlayerFull.cancel_timers
      cases s'.after_id
      · exact ⟨h1, h2⟩
      · exact ⟨le_rfl, le_trans h1 h2⟩
  · refine ⟨?_, ?_⟩
    · intro e he
      rw [hfix.2.2.2.1] at he
      rw [hfix.2.2.2.2]
      cases he with
      | head => rfl
      | tail _ h => cases h
    · rw [hfix.2.2.2.1]; simp
  · intro k hk
    rw [full_tick_chain_count k _ (n - 1) s.next_after_id 1000
      (by simp [hr]) (by simp [hp]) (by rw [hfix.1]; omega) hfix.2.2.2.1]
    rw [Nat.sub_add_cancel hn]
    exact if_pos hk

/-- Witness for the amended C2 at the concrete running player: arming a
2-second countdown and delivering 5 ticks fires the expiry exactly once,
and cancelling empties the pending queue. -/
theorem claim_C2_amended_countdown_witness :
    (MemePlayerFull.iter_deliver_ticks 5
      ((MemePlayerFull.start_countdown (((2 : Nat)) : Int)
        runningImgState).1)).2 = 1 ∧
    (MemePlayerFull.cancel_timers runningImgState).sched = [] := by
  have h := claim_C2_amended_countdown runningImgState 2 rfl rfl
    (by constructor <;> decide) (by decide)
  exact ⟨h.2.2.2.2 5 (by decide), h.2.2.1⟩

/-! ## Claim C9: the loop-videos flag -/

/-- **C9 evaluation at the failing input.** With the loop flag set and VLC
reporting a 3000 ms duration for the current video `/memes/v.mp4`,
`_play_current` renders the video and arms the countdown for the clip's own
duration (3 seconds; with an unknown duration, `envVlc`, it falls back to
the 30-second interval) — that much matches the claim.  But the armed
countdown's expiry is `play_next`: after its 3 ticks are delivered the
player has advanced to the next item (index 1, image `a.png` displayed)
instead of looping the same video until manually skipped, contradicting the
source's own comments at lines 623-626 ("don't advance automatically; loop
same video", "schedule to restart same video after its length") and the
checkbox label "Loop videos until skipped". -/
theorem claim_C9_loop_video_advances_code_bug :
    ((MemePlayerFull.play_current envLoop loopState).1).progress_maximum
        = 3 ∧
    ((MemePlayerFull.play_current envLoop loopState).1).displayed
        = some (Shown.video "/memes/v.mp4") ∧
    ((MemePlayerFull.play_current envVlc loopState).1).progress_maximum
        = 30 ∧
    (MemePlayerFull.deliver_steps envLoop 0 3
        ((MemePlayerFull.play_current envLoop loopState).1)).current_index
        = some 1 ∧
    (MemePlayerFull.deliver_steps envLoop 0 3
        ((MemePlayerFull.play_current envLoop loopState).1)).displayed
        = some (Shown.image "/memes/a.png") := by
  refine ⟨?_, ?_, ?_, ?_, ?_⟩ <;> decide
